/-
Verification of the CaaS cluster resource reconciliation logic
(`internal/resources/resource_cluster.go` and `pkg/utils/utils.go` of the
hpegl-containers-terraform-resources provider).

The development shallowly embeds:
  * the poll-attempt closure produced by `createGetTokenFunc` (retry
    classification of list-query errors, the not-found policy, and the two
    closure-local counters),
  * the polling loop driven by the SDK's `StateChangeConf` (modelled from the
    spec, since the SDK is an external collaborator),
  * the machine-set merge performed on the create and update paths,
  * `GetDefaultWorkersName`, and
  * the create/update/delete orchestration functions, with the remote API,
    the token provider and the polling responses supplied as explicit oracles.

Machine integers do not occur in the verified logic; counters are Nat.
-/
import Mathlib

/-! ## Backend state strings (source: resource_cluster.go, const block) -/

def stateInitializing : String := "initializing"

def stateProvisioning : String := "infra-provisioning"

def stateDeProvisioning : String := "infra-deprovisioning"

def stateCreating : String := "creating"

def stateDeleting : String := "deleting"

def stateReady : String := "ready"

def stateDeleted : String := "deleted"

def stateUpdating : String := "updating"

def stateUpgrading : String := "upgrading"

/-- Placeholder state used to allow retrying after errors. -/
def stateRetrying : String := "retrying"

/-- `clusterAvailableTimeout = 60 * time.Minute`, in seconds. -/
def clusterAvailableTimeout : Nat := 60 * 60

/-- `clusterDeleteTimeout = 60 * time.Minute`, in seconds. -/
def clusterDeleteTimeout : Nat := 60 * 60

/-- `pollingInterval = 10 * time.Second`, in seconds. -/
def pollingInterval : Nat := 10

/-- Number of retries if certain http response codes are returned by the client
when polling, or if the cluster is not present in the list of clusters. -/
def retryLimit : Nat := 3

/-! ## Data model -/

/-- The fields of `mcaasapi.MachineSet` that the merge logic inspects
(identity is by `Name`; `Count` distinguishes a redeclared pool). -/
structure MachineSet where
  name : String
  count : Int
deriving Repr, DecidableEq

/-- The fields of `mcaasapi.MachineSetDetail` consumed by
`GetDefaultWorkersName`: the pool name and its machine roles. -/
structure MachineSetDetail where
  name : String
  machineRoles : List String
deriving Repr, DecidableEq

/-- The fields of `mcaasapi.Cluster` consumed by the reconciliation logic. -/
structure Cluster where
  id : String
  state : String
  machineSets : List MachineSet
  machineSetsDetail : List MachineSetDetail
deriving Repr, DecidableEq

/-! ## The poll-attempt closure (`createGetTokenFunc`) -/

/-- The two counters captured by the closure returned by `createGetTokenFunc`. -/
structure Counters where
  noEntryInListRetryCount : Nat
  errRetryCount : Nat
deriving Repr, DecidableEq

/-- Outcome of one call of `c.CaasClient.ClustersApi.V1ClustersGet`:
either the item list, an error with a non-nil response (carrying the HTTP
status code), or an error with a nil response (network layer; `timeout`
records whether `isErrRetryable` holds, i.e. a `net.Error` timeout). -/
inductive ListResult where
  | ok (items : List Cluster)
  | httpErr (status : Nat) (msg : String)
  | netErr (timeout : Bool) (msg : String)
deriving Repr, DecidableEq

deriving instance DecidableEq for Except

/-- The external inputs consumed by one execution of the poll-attempt
closure: the result of its fresh `auth.GetToken` call and the result of its
list query. -/
structure AttemptEnv where
  tokenResult : Except String String
  listResult : ListResult
deriving Repr, DecidableEq

/-- Return value of the poll-attempt closure, a Go pair `(string, error)`
with exactly one side meaningful. -/
inductive AttemptOut where
  | state (s : String)
  | fatal (msg : String)
deriving Repr, DecidableEq

/-- Result of one attempt: the returned value, the updated closure counters,
and the token that was passed to the list query (`none` when token
acquisition failed before the query was made). -/
structure StepResult where
  out : AttemptOut
  counters : Counters
  usedToken : Option String
deriving Repr, DecidableEq

/-- The search loop `for i := range clusters.Items { if Items[i].Id == id
{ cluster = &Items[i] } }`: the last matching item wins. -/
def findCluster (items : List Cluster) (id : String) : Option Cluster :=
  items.foldl (fun acc it => if it.id = id then some it else acc) none

/-- One execution of the closure returned by `createGetTokenFunc`
(resource_cluster.go lines 408-484), including the `fallthrough` chain of the
Go `switch` on the HTTP status code. -/
def getTokenFuncStep (id expectedState : String) (env : AttemptEnv)
    (c : Counters) : StepResult :=
  match env.tokenResult with
  | .error e => ⟨.fatal e, c, none⟩
  | .ok token =>
    match env.listResult with
    | .httpErr status msg =>
      if status = 500 then
        -- case http.StatusInternalServerError
        let e1 := c.errRetryCount + 1
        if e1 < retryLimit then
          ⟨.state stateRetrying, ⟨c.noEntryInListRetryCount, e1⟩, some token⟩
        else
          -- fallthrough into the http.StatusGatewayTimeout case body
          let e2 := e1 + 1
          if e2 < retryLimit then
            ⟨.state stateRetrying, ⟨c.noEntryInListRetryCount, e2⟩, some token⟩
          else
            -- fallthrough into the default case: return "", err
            ⟨.fatal msg, ⟨c.noEntryInListRetryCount, e2⟩, some token⟩
      else if status = 504 then
        -- case http.StatusGatewayTimeout
        let e1 := c.errRetryCount + 1
        if e1 < retryLimit then
          ⟨.state stateRetrying, ⟨c.noEntryInListRetryCount, e1⟩, some token⟩
        else
          -- fallthrough into the default case: return "", err
          ⟨.fatal msg, ⟨c.noEntryInListRetryCount, e1⟩, some token⟩
      else
        -- default case: return "", err
        ⟨.fatal msg, c, some token⟩
    | .netErr timeout msg =>
      if timeout then
        -- isErrRetryable(err)
        let e1 := c.errRetryCount + 1
        if e1 < retryLimit then
          ⟨.state stateRetrying, ⟨c.noEntryInListRetryCount, e1⟩, some token⟩
        else
          ⟨.fatal ("error in getting cluster list: " ++ msg),
            ⟨c.noEntryInListRetryCount, e1⟩, some token⟩
      else
        ⟨.fatal ("error in getting cluster list: " ++ msg), c, some token⟩
    | .ok items =>
      -- errRetryCount = 0 (reset error counter on successful query)
      match findCluster items id with
      | some cluster =>
        -- noEntryInListRetryCount = 0; return cluster.State, nil
        ⟨.state cluster.state, ⟨0, 0⟩, some token⟩
      | none =>
        if expectedState = stateDeleted then
          ⟨.state stateDeleted, ⟨c.noEntryInListRetryCount, 0⟩, some token⟩
        else
          let n1 := c.noEntryInListRetryCount + 1
          if n1 > retryLimit then
            ⟨.fatal "failed to find cluster in list", ⟨n1, 0⟩, some token⟩
          else
            ⟨.state stateRetrying, ⟨n1, 0⟩, some token⟩

/-! ## The polling loop -/

/-- Terminal outcome of a polling loop. -/
inductive PollOutcome where
  | success (s : String)
  | fatal (msg : String)
  | timeout
deriving Repr, DecidableEq

/-- Modelled from the spec: the State Poller (the SDK's
`resource.StateChangeConf.WaitForStateContext`, an external collaborator not
part of this repository) repeatedly runs the refresh function; a refresh
error is fatal; a state in the target set stops with success; a state in the
pending set sleeps one interval and polls again; any other state is an
unexpected-state fatal error; the overall timeout is modelled by exhaustion
of the finite oracle list.  The second component records, per executed
attempt, the token that attempt passed to the list query. -/
def runPollAux (pending target : List String) (id expectedState : String) :
    List AttemptEnv → Counters → PollOutcome × List (Option String)
  | [], _ => (.timeout, [])
  | env :: rest, c =>
    let r := getTokenFuncStep id expectedState env c
    match r.out with
    | .fatal m => (.fatal m, [r.usedToken])
    | .state s =>
      if s ∈ target then (.success s, [r.usedToken])
      else if s ∈ pending then
        let k := runPollAux pending target id expectedState rest r.counters
        (k.1, r.usedToken :: k.2)
      else (.fatal ("unexpected state: " ++ s), [r.usedToken])

/-- The outcome of the polling loop. -/
def runPoll (pending target : List String) (id expectedState : String)
    (envs : List AttemptEnv) (c : Counters) : PollOutcome :=
  (runPollAux pending target id expectedState envs c).1

/-- The per-attempt trace of tokens passed to the list query. -/
def runPollTokens (pending target : List String) (id expectedState : String)
    (envs : List AttemptEnv) (c : Counters) : List (Option String) :=
  (runPollAux pending target id expectedState envs c).2

/-! ## StateChangeConf configurations (source lines 111-118, 191-198, 374-381, 563-570) -/

/-- The fields of the SDK's `resource.StateChangeConf` that the resource
populates; durations are in seconds, the `timeoutSeconds` field holds the
default supplied through `schema.DefaultTimeout` on the resource. -/
structure StateChangeConfSpec where
  delay : Nat
  pending : List String
  target : List String
  timeoutSeconds : Nat
  minTimeout : Nat
deriving Repr, DecidableEq

/-- Pending set of the initial create poll. -/
def createInitialPending : List String :=
  [stateInitializing, stateProvisioning, stateCreating, stateRetrying]

/-- Pending set of the post-worker-node-update create poll and of the update
poll. -/
def postUpdatePending : List String :=
  [stateProvisioning, stateCreating, stateRetrying, stateUpdating,
    stateDeProvisioning, stateUpgrading]

/-- Pending set of the delete poll. -/
def deletePending : List String := [stateDeleting, stateRetrying]

/-- The `createStateConf` of `clusterCreateContext` (initial poll). -/
def createInitialStateConf : StateChangeConfSpec :=
  ⟨0, createInitialPending, [stateReady], clusterAvailableTimeout, pollingInterval⟩

/-- The `createStateConf` built after the follow-up worker-node update inside
`clusterCreateContext`. -/
def createPostUpdateStateConf : StateChangeConfSpec :=
  ⟨0, postUpdatePending, [stateReady], clusterAvailableTimeout, pollingInterval⟩

/-- The `createStateConf` of `clusterUpdateContext` (its `Timeout` field also
reads the create timeout, whose default equals the update default). -/
def updateStateConf : StateChangeConfSpec :=
  ⟨0, postUpdatePending, [stateReady], clusterAvailableTimeout, pollingInterval⟩

/-- The `deleteStateConf` of `clusterDeleteContext`. -/
def deleteStateConf : StateChangeConfSpec :=
  ⟨pollingInterval, deletePending, [stateDeleted], clusterDeleteTimeout,
    pollingInterval⟩

/-! ## Machine-set merge (create path lines 151-163, update path lines 527-536) -/

/-- `utils.WorkerPresentInMachineSets` (pkg/utils/utils.go): linear scan for
a machine set with the given name. -/
def WorkerPresentInMachineSets (machineSets : List MachineSet)
    (workername : String) : Bool :=
  machineSets.any (fun ms => ms.name = workername)

/-- Modelled from the spec: `utils.RemoveWorkerFromMachineSets` is called by
the cluster resource but its definition is not among the sources; per the
spec, a default machine set whose name collides with a declared machine set
name is dropped from the defaults. -/
def RemoveWorkerFromMachineSets (machineSets : List MachineSet)
    (workername : String) : List MachineSet :=
  machineSets.filter (fun ms => ms.name ≠ workername)

/-- The default-removal loop shared by both merge sites:
`for _, defaultWorkerName := range defaultWorkersName { if
utils.WorkerPresentInMachineSets(machineSets, defaultWorkerName) {
defaultMachineSets = utils.RemoveWorkerFromMachineSets(defaultMachineSets,
defaultWorkerName) } }`. -/
def dropDeclaredDefaults (declared defaults : List MachineSet)
    (defaultWorkersName : List String) : List MachineSet :=
  defaultWorkersName.foldl
    (fun dms dwn =>
      if WorkerPresentInMachineSets declared dwn then
        RemoveWorkerFromMachineSets dms dwn
      else dms)
    defaults

/-- The create-path merge (line 163):
`machineSets = append(defaultMachineSets, machineSets...)` — the surviving
defaults come first, the declared sets after them. -/
def mergeMachineSetsCreate (declared defaults : List MachineSet)
    (defaultWorkersName : List String) : List MachineSet :=
  dropDeclaredDefaults declared defaults defaultWorkersName ++ declared

/-- The update-path merge (line 536):
`machineSets = append(machineSets, defaultMachineSets...)` — the declared
sets come first, the surviving defaults after them. -/
def mergeMachineSetsUpdate (declared defaults : List MachineSet)
    (defaultWorkersName : List String) : List MachineSet :=
  declared ++ dropDeclaredDefaults declared defaults defaultWorkersName

/-! ## GetDefaultWorkersName (lines 643-666) -/

/-- `GetDefaultWorkersName`, acting on the decoded
`default_machine_sets_detail` entries: collect `msd.Name` once per `"worker"`
occurrence in `msd.MachineRoles`; an empty collection is the error
`Worker node not present in the cluster`. -/
def GetDefaultWorkersName (details : List MachineSetDetail) :
    Except String (List String) :=
  let workerNames := details.flatMap
    (fun msd => msd.machineRoles.filterMap
      (fun role => if role = "worker" then some msd.name else none))
  if workerNames.length = 0 then
    .error "Worker node not present in the cluster"
  else
    .ok workerNames

/-! ## Orchestration (clusterCreateContext / clusterUpdateContext / clusterDeleteContext) -/

/-- Modelled from the spec: `utils.GetErrorMessage` (internal/utils, not among
the sources) builds a descriptive message from the underlying error and the
HTTP status code of the response; the reconciliation logic only requires that
it consumes the status code of a non-nil response. -/
def GetErrorMessage (err : String) (statusCode : Nat) : String :=
  err ++ " (status " ++ toString statusCode ++ ")"

/-- An error returned by a mutating API call together with the HTTP response
that accompanied it; `respStatus = none` models a nil `*http.Response`
(network-layer failure). -/
structure CallError where
  msg : String
  respStatus : Option Nat
deriving Repr, DecidableEq

/-- Modelled from the spec: the resource schema (internal/resources/schemas,
not among the sources) declares the Kubernetes version under the key
`kubernetes_version` — the key read by `clusterUpdateContext` and written by
the acceptance-test configuration; `GetOk` on a key the schema does not
declare yields the zero value and `false`, and `GetOk` on a declared key is
`ok` exactly when the stored value is non-zero (non-empty string). -/
def getOkString (kubernetesVersion : Option String) (key : String) :
    Option String :=
  if key = "kubernetes_version" then
    match kubernetesVersion with
    | some v => if v = "" then none else some v
    | none => none
  else
    none

/-- The persisted resource data fields that the cluster orchestration reads
or writes.  `worker_nodes` holds the declared extra worker pools already in
`mcaasapi.MachineSet` form (modelled from the spec: `getWorkerNodeDetails`,
whose definition is not among the sources, converts one declared worker-node
configuration block into a `MachineSet`). -/
structure ResourceData where
  id : String
  worker_nodes : List MachineSet
  kubernetes_version : Option String
  default_machine_sets : List MachineSet
  default_machine_sets_detail : List MachineSetDetail
deriving Repr, DecidableEq

/-- Outcome of a CRUD context function: success, a diagnostics error, or the
nil-response dereference reached when a mutating call errs with no HTTP
response (`resp.StatusCode` on a nil `resp`). -/
inductive CtxOutcome where
  | ok
  | err (msg : String)
  | panicNilResponse
deriving Repr, DecidableEq

/-- Oracle for one execution of `clusterCreateContext`: results of
`client.GetClientFromMetaMap`, the initial `auth.GetToken`, the
`V1ClustersPost` call, the first poll's attempts, the follow-up
`V1ClustersIdPut` call, the second poll's attempts, and the final
`clusterReadContext` (abstracted; it never touches the identifier). -/
structure CreateEnv where
  clientErr : Option String
  tokenResult : Except String String
  postResult : Except CallError Cluster
  poll1 : List AttemptEnv
  putResult : Except CallError Cluster
  poll2 : List AttemptEnv
  readResult : Except String Unit
deriving Repr, DecidableEq

/-- Result of `clusterCreateContext`: the updated resource data, whether the
follow-up `V1ClustersIdPut` call was issued, and the outcome. -/
structure CreateResult where
  d : ResourceData
  followUpIssued : Bool
  outcome : CtxOutcome
deriving Repr, DecidableEq

/-- Converts a polling failure into the context outcome: a fatal refresh
error surfaces through `diag.FromErr`; oracle exhaustion models the overall
timeout error of `WaitForStateContext`. -/
def pollFailureOutcome : PollOutcome → CtxOutcome
  | .success s => .err ("unreachable success: " ++ s)
  | .fatal m => .err m
  | .timeout => .err "timeout while waiting for state"

/-- `clusterCreateContext` (lines 80-208): post the creation request, poll to
`ready`, persist the identifier and the default machine sets/details, then —
when `GetOk` reports declared worker nodes or a Kubernetes version under the
key `kubernetesVersion` — merge the machine sets, issue the follow-up update
and poll again, and finish with a read. -/
def clusterCreateContext (d : ResourceData) (env : CreateEnv) : CreateResult :=
  match env.clientErr with
  | some e => ⟨d, false, .err e⟩
  | none =>
  match env.tokenResult with
  | .error e => ⟨d, false, .err ("Error in getting token in cluster-create: " ++ e)⟩
  | .ok _token =>
  match env.postResult with
  | .error ce =>
    match ce.respStatus with
    | none => ⟨d, false, .panicNilResponse⟩
    | some status =>
      ⟨d, false, .err ("Error in ClustersPost: " ++ ce.msg ++ " - "
        ++ GetErrorMessage ce.msg status)⟩
  | .ok cluster =>
  match runPoll createInitialPending [stateReady] cluster.id stateReady
      env.poll1 ⟨0, 0⟩ with
  | .success _ =>
    let d1 : ResourceData :=
      { d with id := cluster.id,
               default_machine_sets := cluster.machineSets,
               default_machine_sets_detail := cluster.machineSetsDetail }
    let workerNodePresent := decide (d1.worker_nodes ≠ [])
    let k8sVersionPresent :=
      (getOkString d1.kubernetes_version "kubernetesVersion").isSome
    if workerNodePresent || k8sVersionPresent then
      let machineSets := d1.worker_nodes
      match GetDefaultWorkersName d1.default_machine_sets_detail with
      | .error e => ⟨d1, false, .err e⟩
      | .ok defaultWorkersName =>
        let _merged :=
          mergeMachineSetsCreate machineSets cluster.machineSets
            defaultWorkersName
        match env.putResult with
        | .error ce =>
          match ce.respStatus with
          | none => ⟨d1, true, .panicNilResponse⟩
          | some status =>
            ⟨d1, true, .err ("Error in V1ClustersIdPut: " ++ ce.msg ++ " - "
              ++ GetErrorMessage ce.msg status)⟩
        | .ok cluster2 =>
          match runPoll postUpdatePending [stateReady] cluster2.id stateReady
              env.poll2 ⟨0, 0⟩ with
          | .success _ =>
            match env.readResult with
            | .ok _ => ⟨d1, true, .ok⟩
            | .error e => ⟨d1, true, .err e⟩
          | p => ⟨d1, true, pollFailureOutcome p⟩
    else
      match env.readResult with
      | .ok _ => ⟨d1, false, .ok⟩
      | .error e => ⟨d1, false, .err e⟩
  | p => ⟨d, false, pollFailureOutcome p⟩

/-- Oracle for one execution of `clusterDeleteContext`. -/
structure DeleteEnv where
  clientErr : Option String
  tokenResult : Except String String
  deleteResult : Except String Unit
  poll : List AttemptEnv
deriving Repr, DecidableEq

/-- `clusterDeleteContext` (lines 353-393): submit the delete call, poll to
`deleted` and clear the persisted identifier only when the poll succeeds. -/
def clusterDeleteContext (d : ResourceData) (env : DeleteEnv) :
    ResourceData × CtxOutcome :=
  match env.clientErr with
  | some e => (d, .err e)
  | none =>
  match env.tokenResult with
  | .error e => (d, .err ("Error in getting token: " ++ e))
  | .ok _token =>
  match env.deleteResult with
  | .error e => (d, .err e)
  | .ok _ =>
  match runPoll deletePending [stateDeleted] d.id stateDeleted env.poll ⟨0, 0⟩ with
  | .success _ => ({ d with id := "" }, .ok)
  | p => (d, pollFailureOutcome p)

/-- Oracle for one execution of `clusterUpdateContext`;
`hasChangeWorkerNodes` models `d.HasChange("worker_nodes")`, a host-supplied
diff fact. -/
structure UpdateEnv where
  clientErr : Option String
  tokenResult : Except String String
  hasChangeWorkerNodes : Bool
  putResult : Except CallError Cluster
  poll : List AttemptEnv
  readResult : Except String Unit
deriving Repr, DecidableEq

/-- Result of `clusterUpdateContext`: the updated resource data, whether the
`V1ClustersIdPut` call was issued, and the outcome. -/
structure UpdateResult where
  d : ResourceData
  putIssued : Bool
  outcome : CtxOutcome
deriving Repr, DecidableEq

/-- `clusterUpdateContext` (lines 497-579): when the declared worker nodes
changed or a Kubernetes version is declared (key `kubernetes_version`), merge
the declared machine sets with the stored defaults, issue the update call,
poll to `ready`, and finish with a read; the persisted identifier is never
written. -/
def clusterUpdateContext (d : ResourceData) (env : UpdateEnv) : UpdateResult :=
  match env.clientErr with
  | some e => ⟨d, false, .err e⟩
  | none =>
  match env.tokenResult with
  | .error e => ⟨d, false, .err ("Error in getting token in cluster-create: " ++ e)⟩
  | .ok _token =>
  let k8sVersionPresent :=
    (getOkString d.kubernetes_version "kubernetes_version").isSome
  if env.hasChangeWorkerNodes || k8sVersionPresent then
    let machineSets := d.worker_nodes
    let defaultMachineSets := d.default_machine_sets
    match GetDefaultWorkersName d.default_machine_sets_detail with
    | .error e => ⟨d, false, .err e⟩
    | .ok defaultWorkersName =>
      let _merged :=
        mergeMachineSetsUpdate machineSets defaultMachineSets
          defaultWorkersName
      match env.putResult with
      | .error ce =>
        match ce.respStatus with
        | none => ⟨d, true, .panicNilResponse⟩
        | some status =>
          ⟨d, true, .err ("Error in V1ClustersIdPut: " ++ ce.msg ++ " - "
            ++ GetErrorMessage ce.msg status)⟩
      | .ok cluster2 =>
        match runPoll postUpdatePending [stateReady] cluster2.id stateReady
            env.poll ⟨0, 0⟩ with
        | .success _ =>
          match env.readResult with
          | .ok _ => ⟨d, true, .ok⟩
          | .error e => ⟨d, true, .err e⟩
        | p => ⟨d, true, pollFailureOutcome p⟩
  else
    match env.readResult with
    | .ok _ => ⟨d, false, .ok⟩
    | .error e => ⟨d, false, .err e⟩

/-! ## Helper lemmas on the poll-attempt step -/

/-- The token an attempt environment offers, when acquisition succeeds. -/
def tokenOf (e : AttemptEnv) : Option String :=
  e.tokenResult.toOption

/-- An attempt whose token acquisition succeeds and whose list query fails
with HTTP status 500 or 504. -/
def transient500 (e : AttemptEnv) : Prop :=
  (∃ t, e.tokenResult = Except.ok t) ∧
    ∃ s m, e.listResult = ListResult.httpErr s m ∧ (s = 500 ∨ s = 504)

/-- An attempt whose token acquisition succeeds and whose list query
succeeds without the tracked identifier among the items. -/
def absentOk (id : String) (e : AttemptEnv) : Prop :=
  (∃ t, e.tokenResult = Except.ok t) ∧
    ∃ items, e.listResult = ListResult.ok items ∧ findCluster items id = none

lemma step_token_error (id exp : String) (e : AttemptEnv) (c : Counters)
    (m : String) (h : e.tokenResult = .error m) :
    getTokenFuncStep id exp e c = ⟨.fatal m, c, none⟩ := by
  simp [getTokenFuncStep, h]

lemma step_transient_under (id exp : String) (e : AttemptEnv) (c : Counters)
    (t : String) (s : Nat) (m : String)
    (ht : e.tokenResult = .ok t) (hl : e.listResult = .httpErr s m)
    (hs : s = 500 ∨ s = 504) (hlt : c.errRetryCount + 1 < retryLimit) :
    getTokenFuncStep id exp e c
      = ⟨.state stateRetrying,
          ⟨c.noEntryInListRetryCount, c.errRetryCount + 1⟩, some t⟩ := by
  rcases hs with hs | hs <;>
    simp [getTokenFuncStep, ht, hl, hs, hlt]

lemma step_transient_atLimit (id exp : String) (e : AttemptEnv) (c : Counters)
    (t : String) (s : Nat) (m : String)
    (ht : e.tokenResult = .ok t) (hl : e.listResult = .httpErr s m)
    (hs : s = 500 ∨ s = 504) (hlt : ¬ c.errRetryCount + 1 < retryLimit) :
    (getTokenFuncStep id exp e c).out = .fatal m := by
  have h3 : ¬ c.errRetryCount + 1 + 1 < retryLimit := by
    simp only [retryLimit] at hlt ⊢
    omega
  rcases hs with hs | hs <;>
    simp [getTokenFuncStep, ht, hl, hs, hlt, h3]

lemma step_other_status (id exp : String) (e : AttemptEnv) (c : Counters)
    (t : String) (s : Nat) (m : String)
    (ht : e.tokenResult = .ok t) (hl : e.listResult = .httpErr s m)
    (h500 : s ≠ 500) (h504 : s ≠ 504) :
    getTokenFuncStep id exp e c = ⟨.fatal m, c, some t⟩ := by
  simp [getTokenFuncStep, ht, hl, h500, h504]

lemma step_found (id exp : String) (e : AttemptEnv) (c : Counters)
    (t : String) (items : List Cluster) (cl : Cluster)
    (ht : e.tokenResult = .ok t) (hl : e.listResult = .ok items)
    (hf : findCluster items id = some cl) :
    getTokenFuncStep id exp e c = ⟨.state cl.state, ⟨0, 0⟩, some t⟩ := by
  simp [getTokenFuncStep, ht, hl, hf]

lemma step_absent_deleted (id : String) (e : AttemptEnv) (c : Counters)
    (t : String) (items : List Cluster)
    (ht : e.tokenResult = .ok t) (hl : e.listResult = .ok items)
    (hf : findCluster items id = none) :
    getTokenFuncStep id stateDeleted e c
      = ⟨.state stateDeleted, ⟨c.noEntryInListRetryCount, 0⟩, some t⟩ := by
  simp [getTokenFuncStep, ht, hl, hf]

lemma step_absent_other (id exp : String) (e : AttemptEnv) (c : Counters)
    (t : String) (items : List Cluster)
    (hexp : exp ≠ stateDeleted)
    (ht : e.tokenResult = .ok t) (hl : e.listResult = .ok items)
    (hf : findCluster items id = none) :
    getTokenFuncStep id exp e c
      = if c.noEntryInListRetryCount + 1 > retryLimit then
          ⟨.fatal "failed to find cluster in list",
            ⟨c.noEntryInListRetryCount + 1, 0⟩, some t⟩
        else
          ⟨.state stateRetrying, ⟨c.noEntryInListRetryCount + 1, 0⟩, some t⟩ := by
  simp [getTokenFuncStep, ht, hl, hf, hexp]

lemma step_usedToken (id exp : String) (e : AttemptEnv) (c : Counters) :
    (getTokenFuncStep id exp e c).usedToken = tokenOf e := by
  rcases he : e.tokenResult with m | t
  · simp [getTokenFuncStep, he, tokenOf, Except.toOption]
  · rcases hl : e.listResult with items | ⟨s, m'⟩ | ⟨tmo, m'⟩
    · rcases hf : findCluster items id with _ | cl
      · by_cases hexp : exp = stateDeleted
        · simp [getTokenFuncStep, he, hl, hf, hexp, tokenOf, Except.toOption]
        · rw [step_absent_other id exp e c t items hexp he hl hf]
          split <;> simp [tokenOf, Except.toOption, he]
      · rw [step_found id exp e c t items cl he hl hf]
        simp [tokenOf, Except.toOption, he]
    · by_cases h5 : s = 500
      · subst h5
        by_cases h1 : c.errRetryCount + 1 < retryLimit
        · simp [getTokenFuncStep, he, hl, h1, tokenOf, Except.toOption]
        · by_cases h2 : c.errRetryCount + 1 + 1 < retryLimit <;>
            simp [getTokenFuncStep, he, hl, h1, h2, tokenOf, Except.toOption]
      · by_cases h4 : s = 504
        · subst h4
          by_cases h1 : c.errRetryCount + 1 < retryLimit <;>
            simp [getTokenFuncStep, he, hl, h1, tokenOf, Except.toOption]
        · simp [getTokenFuncStep, he, hl, h5, h4, tokenOf, Except.toOption]
    · cases tmo <;> by_cases h1 : c.errRetryCount + 1 < retryLimit <;>
        simp [getTokenFuncStep, he, hl, h1, tokenOf, Except.toOption]

/-! ## Helper lemmas on the polling loop -/

lemma runPoll_nil (p t : List String) (id exp : String) (c : Counters) :
    runPoll p t id exp [] c = .timeout := rfl

lemma runPoll_cons (p t : List String) (id exp : String) (e : AttemptEnv)
    (rest : List AttemptEnv) (c : Counters) :
    runPoll p t id exp (e :: rest) c
      = match (getTokenFuncStep id exp e c).out with
        | .fatal m => .fatal m
        | .state s =>
          if s ∈ t then .success s
          else if s ∈ p then
            runPoll p t id exp rest (getTokenFuncStep id exp e c).counters
          else .fatal ("unexpected state: " ++ s) := by
  simp only [runPoll, runPollAux]
  rcases (getTokenFuncStep id exp e c).out with s | m
  · by_cases h1 : s ∈ t
    · simp [h1]
    · by_cases h2 : s ∈ p <;> simp [h1, h2]
  · simp

lemma runPoll_success_mem_target (p t : List String) (id exp : String) :
    ∀ (envs : List AttemptEnv) (c : Counters) (s : String),
      runPoll p t id exp envs c = .success s → s ∈ t := by
  intro envs
  induction envs with
  | nil => intro c s h; simp [runPoll_nil] at h
  | cons e rest ih =>
    intro c s h
    rw [runPoll_cons] at h
    rcases hout : (getTokenFuncStep id exp e c).out with s' | m
    · rw [hout] at h
      by_cases h1 : s' ∈ t
      · simp only [if_pos h1, PollOutcome.success.injEq] at h
        subst h
        exact h1
      · by_cases h2 : s' ∈ p
        · simp only [if_neg h1, if_pos h2] at h
          exact ih _ s h
        · simp [h1, h2] at h
    · rw [hout] at h
      simp at h

lemma runPoll_absorb_transient (p t : List String) (id exp : String)
    (hp : stateRetrying ∈ p) (hnt : stateRetrying ∉ t) :
    ∀ (envs1 envs2 : List AttemptEnv) (c : Counters),
      (∀ e ∈ envs1, transient500 e) →
      c.errRetryCount + envs1.length < retryLimit →
      runPoll p t id exp (envs1 ++ envs2) c
        = runPoll p t id exp envs2
            ⟨c.noEntryInListRetryCount, c.errRetryCount + envs1.length⟩ := by
  intro envs1
  induction envs1 with
  | nil =>
    intro envs2 c _ _
    simp
  | cons e rest ih =>
    intro envs2 c hall hlt
    obtain ⟨⟨tk, htk⟩, s, m, hl, hs⟩ := hall e (by simp)
    have hstep := step_transient_under id exp e c tk s m htk hl hs
      (by simp at hlt ⊢; omega)
    rw [List.cons_append, runPoll_cons, hstep]
    simp only [if_neg hnt, if_pos hp]
    rw [ih envs2 ⟨c.noEntryInListRetryCount, c.errRetryCount + 1⟩
      (fun e' he' => hall e' (by simp [he']))
      (by simp at hlt ⊢; omega)]
    congr 1
    simp
    omega

lemma runPoll_absorb_absent (p t : List String) (id exp : String)
    (hp : stateRetrying ∈ p) (hnt : stateRetrying ∉ t)
    (hexp : exp ≠ stateDeleted) :
    ∀ (envs1 envs2 : List AttemptEnv) (c : Counters),
      (∀ e ∈ envs1, absentOk id e) →
      c.errRetryCount = 0 →
      c.noEntryInListRetryCount + envs1.length ≤ retryLimit →
      runPoll p t id exp (envs1 ++ envs2) c
        = runPoll p t id exp envs2
            ⟨c.noEntryInListRetryCount + envs1.length, 0⟩ := by
  intro envs1
  induction envs1 with
  | nil =>
    intro envs2 c _ herr _
    rcases c with ⟨n, er⟩
    simp at herr
    subst herr
    simp
  | cons e rest ih =>
    intro envs2 c hall herr hle
    obtain ⟨⟨tk, htk⟩, items, hl, hf⟩ := hall e (by simp)
    have hstep := step_absent_other id exp e c tk items hexp htk hl hf
    rw [List.cons_append, runPoll_cons, hstep]
    have hgt : ¬ c.noEntryInListRetryCount + 1 > retryLimit := by
      simp at hle ⊢
      omega
    rw [if_neg hgt]
    simp only [if_neg hnt, if_pos hp]
    rw [ih envs2 ⟨c.noEntryInListRetryCount + 1, 0⟩
      (fun e' he' => hall e' (by simp [he']))
      rfl
      (by simp at hle ⊢; omega)]
    congr 1
    simp
    omega

lemma runPollTokens_trace (p t : List String) (id exp : String) :
    ∀ (envs : List AttemptEnv) (c : Counters), ∃ k,
      runPollTokens p t id exp envs c = (envs.take k).map tokenOf := by
  intro envs
  induction envs with
  | nil =>
    intro c
    exact ⟨0, rfl⟩
  | cons e rest ih =>
    intro c
    simp only [runPollTokens, runPollAux]
    rcases hout : (getTokenFuncStep id exp e c).out with s | m
    · by_cases h1 : s ∈ t
      · refine ⟨1, ?_⟩
        simp [h1, step_usedToken]
      · by_cases h2 : s ∈ p
        · obtain ⟨k, hk⟩ := ih (getTokenFuncStep id exp e c).counters
          refine ⟨k + 1, ?_⟩
          simp only [h1, h2, if_neg, if_pos, if_false, if_true]
          simp [runPollTokens] at hk
          simp [hk, step_usedToken]
        · refine ⟨1, ?_⟩
          simp [h1, h2, step_usedToken]
    · exact ⟨1, by simp [step_usedToken]⟩

/-! ## Helper lemmas on the machine-set merge -/

lemma dropDeclaredDefaults_eq_filter (declared : List MachineSet)
    (workers : List String) (defaults : List MachineSet) :
    dropDeclaredDefaults declared defaults workers
      = defaults.filter (fun ms =>
          !(workers.contains ms.name
              && WorkerPresentInMachineSets declared ms.name)) := by
  induction workers generalizing defaults with
  | nil =>
    simp [dropDeclaredDefaults]
  | cons w ws ih =>
    simp only [dropDeclaredDefaults, List.foldl_cons] at ih ⊢
    by_cases hw : WorkerPresentInMachineSets declared w = true
    · rw [if_pos hw, ih, RemoveWorkerFromMachineSets, List.filter_filter]
      apply List.filter_congr
      intro ms _
      by_cases hmw : ms.name = w
      · simp [hmw, hw]
      · simp [hmw, Ne.symm hmw]
    · rw [if_neg hw, ih]
      apply List.filter_congr
      intro ms _
      by_cases hmw : ms.name = w
      · have hw' : WorkerPresentInMachineSets declared w = false :=
          Bool.eq_false_iff.mpr hw
        simp [hmw, hw']
      · simp [hmw]

/-! ## Claim theorems -/

/-- C6: the initial create poll pends on {initializing, infra-provisioning,
creating, retrying} targeting {ready}; the post-worker-node-update create
poll and the update poll pend on {infra-provisioning, creating, retrying,
updating, infra-deprovisioning, upgrading} targeting {ready}; the delete
poll pends on {deleting, retrying} targeting {deleted}; the polling interval
is a fixed 10 seconds, the overall timeout defaults to 60 minutes for both
availability and deletion, and only the delete poll has an initial delay of
one polling interval. -/
theorem pollerConfigurationPerOperation :
    createInitialStateConf
        = ⟨0, ["initializing", "infra-provisioning", "creating", "retrying"],
            ["ready"], 60 * 60, 10⟩
      ∧ createPostUpdateStateConf
        = ⟨0, ["infra-provisioning", "creating", "retrying", "updating",
                "infra-deprovisioning", "upgrading"], ["ready"], 60 * 60, 10⟩
      ∧ updateStateConf = createPostUpdateStateConf
      ∧ deleteStateConf
        = ⟨pollingInterval, ["deleting", "retrying"], ["deleted"], 60 * 60, 10⟩
      ∧ pollingInterval = 10
      ∧ clusterAvailableTimeout = 60 * 60
      ∧ clusterDeleteTimeout = 60 * 60
      ∧ deleteStateConf.delay = pollingInterval
      ∧ createInitialStateConf.delay = 0
      ∧ createPostUpdateStateConf.delay = 0
      ∧ updateStateConf.delay = 0 :=
  ⟨rfl, rfl, rfl, rfl, rfl, rfl, rfl, rfl, rfl, rfl, rfl⟩

/-- C4 counterexample: the claim places the surviving defaults AFTER the
declared sets on the create path and BEFORE them on the update path, but the
code does the opposite.  Merging declared [B:3] with defaults [A:1, B:2]
(B a default-worker name) yields [A:1, B:3] on the create path (defaults
first) and [B:3, A:1] on the update path (defaults last). -/
theorem machineSetMergerOrderCounterexample :
    mergeMachineSetsCreate [⟨"B", 3⟩] [⟨"A", 1⟩, ⟨"B", 2⟩] ["B"]
        = [⟨"A", 1⟩, ⟨"B", 3⟩]
      ∧ mergeMachineSetsCreate [⟨"B", 3⟩] [⟨"A", 1⟩, ⟨"B", 2⟩] ["B"]
        ≠ [⟨"B", 3⟩, ⟨"A", 1⟩]
      ∧ mergeMachineSetsUpdate [⟨"B", 3⟩] [⟨"A", 1⟩, ⟨"B", 2⟩] ["B"]
        = [⟨"B", 3⟩, ⟨"A", 1⟩]
      ∧ mergeMachineSetsUpdate [⟨"B", 3⟩] [⟨"A", 1⟩, ⟨"B", 2⟩] ["B"]
        ≠ [⟨"A", 1⟩, ⟨"B", 3⟩] := by
  refine ⟨rfl, ?_, rfl, ?_⟩ <;> decide

/-- C4 (amended): each default machine set whose name equals the name of
some declared machine set and is a default-worker name is dropped from the
defaults; the remaining defaults are placed BEFORE the declared sets on the
create path and AFTER the declared sets on the update path; merging an empty
declared list with defaults {A, B} (B a worker) yields {A, B} unchanged, and
merging declared [{name: B, count: 3}] with defaults {A, B(worker)} yields B
replaced by the declared entry with A retained. -/
theorem machineSetMergerAmended :
    (∀ declared defaults workers,
        mergeMachineSetsCreate declared defaults workers
          = defaults.filter (fun ms =>
              !(workers.contains ms.name
                  && WorkerPresentInMachineSets declared ms.name)) ++ declared)
      ∧ (∀ declared defaults workers,
        mergeMachineSetsUpdate declared defaults workers
          = declared ++ defaults.filter (fun ms =>
              !(workers.contains ms.name
                  && WorkerPresentInMachineSets declared ms.name)))
      ∧ mergeMachineSetsCreate [] [⟨"A", 1⟩, ⟨"B", 2⟩] ["B"]
        = [⟨"A", 1⟩, ⟨"B", 2⟩]
      ∧ mergeMachineSetsUpdate [] [⟨"A", 1⟩, ⟨"B", 2⟩] ["B"]
        = [⟨"A", 1⟩, ⟨"B", 2⟩]
      ∧ mergeMachineSetsCreate [⟨"B", 3⟩] [⟨"A", 1⟩, ⟨"B", 2⟩] ["B"]
        = [⟨"A", 1⟩, ⟨"B", 3⟩]
      ∧ mergeMachineSetsUpdate [⟨"B", 3⟩] [⟨"A", 1⟩, ⟨"B", 2⟩] ["B"]
        = [⟨"B", 3⟩, ⟨"A", 1⟩] := by
  refine ⟨?_, ?_, rfl, rfl, rfl, rfl⟩
  · intro declared defaults workers
    rw [mergeMachineSetsCreate, dropDeclaredDefaults_eq_filter]
  · intro declared defaults workers
    rw [mergeMachineSetsUpdate, dropDeclaredDefaults_eq_filter]

/-! ## C9 helpers -/

lemma mem_defaultWorkerNames (details : List MachineSetDetail) (n : String) :
    (n ∈ details.flatMap (fun msd => msd.machineRoles.filterMap
        (fun role => if role = "worker" then some msd.name else none)))
      ↔ ∃ msd ∈ details, msd.name = n ∧ "worker" ∈ msd.machineRoles := by
  simp only [List.mem_flatMap, List.mem_filterMap]
  constructor
  · rintro ⟨msd, hmsd, role, hrole, hif⟩
    by_cases h : role = "worker"
    · rw [if_pos h] at hif
      exact ⟨msd, hmsd, Option.some.inj hif, h ▸ hrole⟩
    · rw [if_neg h] at hif
      exact absurd hif (by simp)
  · rintro ⟨msd, hmsd, hname, hw⟩
    exact ⟨msd, hmsd, "worker", hw, by simp [hname]⟩

/-- C9: deriving the default-worker names returns exactly the names of the
machine-set detail entries having role "worker", and returns the error
"Worker node not present in the cluster" precisely when no entry has that
role; a create path that needs the merge, and an update path that needs the
merge, fail with this error on such input. -/
theorem defaultWorkersNameDerivation :
    (∀ details : List MachineSetDetail,
        (GetDefaultWorkersName details
            = .error "Worker node not present in the cluster")
          ↔ ¬ ∃ msd ∈ details, "worker" ∈ msd.machineRoles)
      ∧ (∀ details ns, GetDefaultWorkersName details = .ok ns →
          ∀ n, n ∈ ns
            ↔ ∃ msd ∈ details, msd.name = n ∧ "worker" ∈ msd.machineRoles)
      ∧ (∀ d env cluster e,
          env.clientErr = none →
          (∃ tk, env.tokenResult = .ok tk) →
          env.postResult = .ok cluster →
          (∃ s, runPoll createInitialPending [stateReady] cluster.id
              stateReady env.poll1 ⟨0, 0⟩ = .success s) →
          d.worker_nodes ≠ [] →
          GetDefaultWorkersName cluster.machineSetsDetail = .error e →
          (clusterCreateContext d env).outcome = .err e)
      ∧ (∀ d env e,
          env.clientErr = none →
          (∃ tk, env.tokenResult = .ok tk) →
          (env.hasChangeWorkerNodes = true ∨
            (getOkString d.kubernetes_version "kubernetes_version").isSome
              = true) →
          GetDefaultWorkersName d.default_machine_sets_detail = .error e →
          (clusterUpdateContext d env).outcome = .err e) := by
  refine ⟨?_, ?_, ?_, ?_⟩
  · intro details
    simp only [GetDefaultWorkersName]
    by_cases h : (details.flatMap (fun msd => msd.machineRoles.filterMap
        (fun role => if role = "worker" then some msd.name else none))).length
        = 0
    · rw [if_pos h]
      simp only [List.length_eq_zero] at h
      constructor
      · intro _
        rintro ⟨msd, hmsd, hw⟩
        have : msd.name ∈ (details.flatMap (fun msd => msd.machineRoles.filterMap
            (fun role => if role = "worker" then some msd.name else none))) :=
          (mem_defaultWorkerNames details msd.name).mpr ⟨msd, hmsd, rfl, hw⟩
        rw [h] at this
        exact absurd this (List.not_mem_nil _)
      · intro _
        rfl
    · rw [if_neg h]
      constructor
      · intro hcontra
        exact absurd hcontra (by simp)
      · intro hne
        exfalso
        apply hne
        have hnonempty : (details.flatMap (fun msd => msd.machineRoles.filterMap
            (fun role => if role = "worker" then some msd.name else none))) ≠ [] := by
          intro hnil
          exact h (by rw [hnil]; rfl)
        obtain ⟨n, hn⟩ := List.exists_mem_of_ne_nil _ hnonempty
        obtain ⟨msd, hmsd, _, hw⟩ := (mem_defaultWorkerNames details n).mp hn
        exact ⟨msd, hmsd, hw⟩
  · intro details ns hok n
    simp only [GetDefaultWorkersName] at hok
    by_cases h : (details.flatMap (fun msd => msd.machineRoles.filterMap
        (fun role => if role = "worker" then some msd.name else none))).length
        = 0
    · rw [if_pos h] at hok
      exact absurd hok (by simp)
    · rw [if_neg h] at hok
      have hns := Except.ok.inj hok
      rw [← hns]
      exact mem_defaultWorkerNames details n
  · rintro d env cluster e hclient ⟨tk, htk⟩ hpost ⟨s, hpoll⟩ hwn hget
    simp only [clusterCreateContext, hclient, htk, hpost, hpoll, hwn, hget,
      decide_not, ne_eq, decide_eq_true_eq]
    simp [hwn, hget]
  · rintro d env e hclient ⟨tk, htk⟩ hbranch hget
    have hcond : (env.hasChangeWorkerNodes
        || (getOkString d.kubernetes_version "kubernetes_version").isSome)
        = true := by
      rcases hbranch with hb | hb <;> simp [hb]
    simp only [clusterUpdateContext, hclient, htk, hcond, hget]
    simp [hcond, hget]

/-- C9 witness: on detail entries with no "worker" role the derivation errs
and an update that needs the merge surfaces that error. -/
theorem defaultWorkersNameDerivationWitness :
    GetDefaultWorkersName [⟨"mA", ["controlplane"]⟩]
        = .error "Worker node not present in the cluster"
      ∧ (clusterUpdateContext ⟨"c-1", [], none, [], [⟨"mA", ["controlplane"]⟩]⟩
          ⟨none, .ok "tok", true, .ok ⟨"c-1", "ready", [], []⟩, [], .ok ()⟩).outcome
        = .err "Worker node not present in the cluster" := by
  constructor
  · exact (defaultWorkersNameDerivation.1 _).mpr (by simp)
  · exact defaultWorkersNameDerivation.2.2.2 _ _ _ rfl ⟨"tok", rfl⟩
      (Or.inl rfl) rfl

/-- C1: an attempt failing with HTTP 500 or 504 increments the error retry
counter and yields the synthetic retrying state while the incremented
counter is under the retry limit of 3; a run of strictly fewer than 3
consecutive 500/504 failures followed by a successful query finding the
resource in a target state is fully absorbed and the poll succeeds; 3
consecutive such failures propagate the third error as fatal; any other
HTTP status is fatal immediately, with no retry and no counter change. -/
theorem retryClassificationOf500And504 :
    (∀ id exp e c tk s m, e.tokenResult = .ok tk →
        e.listResult = .httpErr s m → (s = 500 ∨ s = 504) →
        c.errRetryCount + 1 < retryLimit →
        getTokenFuncStep id exp e c
          = ⟨.state stateRetrying,
              ⟨c.noEntryInListRetryCount, c.errRetryCount + 1⟩, some tk⟩)
      ∧ (∀ p t id exp n0 envs1 e2 tk items cl,
          stateRetrying ∈ p → stateRetrying ∉ t →
          (∀ e ∈ envs1, transient500 e) → envs1.length < retryLimit →
          e2.tokenResult = .ok tk → e2.listResult = .ok items →
          findCluster items id = some cl → cl.state ∈ t →
          runPoll p t id exp (envs1 ++ [e2]) ⟨n0, 0⟩ = .success cl.state)
      ∧ (∀ p t id exp n0 e1 e2 e3 rest tk s m,
          stateRetrying ∈ p → stateRetrying ∉ t →
          transient500 e1 → transient500 e2 →
          e3.tokenResult = .ok tk → e3.listResult = .httpErr s m →
          (s = 500 ∨ s = 504) →
          runPoll p t id exp (e1 :: e2 :: e3 :: rest) ⟨n0, 0⟩ = .fatal m)
      ∧ (∀ id exp e c tk s m, e.tokenResult = .ok tk →
          e.listResult = .httpErr s m → s ≠ 500 → s ≠ 504 →
          getTokenFuncStep id exp e c = ⟨.fatal m, c, some tk⟩
            ∧ ∀ p t rest, runPoll p t id exp (e :: rest) c = .fatal m) := by
  refine ⟨?_, ?_, ?_, ?_⟩
  · intro id exp e c tk s m htk hl hs hlt
    exact step_transient_under id exp e c tk s m htk hl hs hlt
  · intro p t id exp n0 envs1 e2 tk items cl hp hnt hall hlen htk hl hf hcl
    rw [runPoll_absorb_transient p t id exp hp hnt envs1 [e2] ⟨n0, 0⟩ hall
      (by simpa using hlen)]
    rw [runPoll_cons, step_found id exp e2 _ tk items cl htk hl hf]
    simp only [if_pos hcl]
  · intro p t id exp n0 e1 e2 e3 rest tk s m hp hnt h1 h2 htk hl hs
    have habs := runPoll_absorb_transient p t id exp hp hnt [e1, e2]
      (e3 :: rest) ⟨n0, 0⟩
      (by
        intro e he
        simp only [List.mem_cons, List.mem_singleton] at he
        rcases he with he | he | he
        · exact he ▸ h1
        · exact he ▸ h2
        · exact absurd he (by simp))
      (by simp [retryLimit])
    rw [show (e1 :: e2 :: e3 :: rest)
        = [e1, e2] ++ (e3 :: rest) from rfl, habs]
    have hc : (⟨(⟨n0, 0⟩ : Counters).noEntryInListRetryCount,
        (⟨n0, 0⟩ : Counters).errRetryCount + [e1, e2].length⟩ : Counters)
        = ⟨n0, 2⟩ := by simp
    rw [hc, runPoll_cons]
    have hout := step_transient_atLimit id exp e3 ⟨n0, 2⟩ tk s m htk hl hs
      (by simp [retryLimit])
    rw [hout]
  · intro id exp e c tk s m htk hl h500 h504
    refine ⟨step_other_status id exp e c tk s m htk hl h500 h504, ?_⟩
    intro p t rest
    rw [runPoll_cons, step_other_status id exp e c tk s m htk hl h500 h504]

/-- C1 witness: two 500/504 failures followed by a successful query succeed;
three consecutive failures are fatal with the third error; a 404 is fatal
immediately. -/
theorem retryClassificationOf500And504Witness :
    getTokenFuncStep "c-1" stateReady ⟨.ok "t1", .httpErr 500 "boom"⟩ ⟨0, 0⟩
        = ⟨.state stateRetrying, ⟨0, 1⟩, some "t1"⟩
      ∧ runPoll createInitialPending [stateReady] "c-1" stateReady
          ([⟨.ok "t1", .httpErr 500 "boom"⟩, ⟨.ok "t2", .httpErr 504 "gw"⟩]
            ++ [⟨.ok "t3", .ok [⟨"c-1", "ready", [], []⟩]⟩]) ⟨0, 0⟩
        = .success "ready"
      ∧ runPoll createInitialPending [stateReady] "c-1" stateReady
          [⟨.ok "t1", .httpErr 500 "boom"⟩, ⟨.ok "t2", .httpErr 500 "boom2"⟩,
            ⟨.ok "t3", .httpErr 504 "gw"⟩] ⟨0, 0⟩
        = .fatal "gw"
      ∧ getTokenFuncStep "c-1" stateReady ⟨.ok "t4", .httpErr 404 "nf"⟩ ⟨0, 0⟩
        = ⟨.fatal "nf", ⟨0, 0⟩, some "t4"⟩ := by
  refine ⟨?_, ?_, ?_, ?_⟩
  · exact retryClassificationOf500And504.1 "c-1" stateReady _ ⟨0, 0⟩ "t1" 500
      "boom" rfl rfl (Or.inl rfl) (by decide)
  · exact retryClassificationOf500And504.2.1 createInitialPending [stateReady]
      "c-1" stateReady 0 _ _ "t3" _ ⟨"c-1", "ready", [], []⟩
      (by decide) (by decide)
      (by
        intro e he
        simp only [List.mem_cons, List.mem_singleton] at he
        rcases he with he | he | he
        · exact he ▸ ⟨⟨"t1", rfl⟩, 500, "boom", rfl, Or.inl rfl⟩
        · exact he ▸ ⟨⟨"t2", rfl⟩, 504, "gw", rfl, Or.inr rfl⟩
        · exact absurd he (by simp))
      (by decide) rfl rfl rfl (by decide)
  · exact retryClassificationOf500And504.2.2.1 createInitialPending
      [stateReady] "c-1" stateReady 0 _ _ _ [] "t3" 504 "gw"
      (by decide) (by decide)
      ⟨⟨"t1", rfl⟩, 500, "boom", rfl, Or.inl rfl⟩
      ⟨⟨"t2", rfl⟩, 500, "boom2", rfl, Or.inl rfl⟩
      rfl rfl (Or.inr rfl)
  · exact (retryClassificationOf500And504.2.2.2 "c-1" stateReady _ ⟨0, 0⟩
      "t4" 404 "nf" rfl rfl (by decide) (by decide)).1

/-- C2: when a successful list query does not contain the tracked
identifier, an expected terminal state of deleted makes the attempt succeed
with deleted (even on the first attempt); otherwise the no-visibility
counter is incremented and the attempt fails with the resource-not-found
error exactly when the incremented counter exceeds 3 (the 4th consecutive
absence), returning the synthetic retrying state on earlier absences; 3
absences followed by an attempt finding the resource in state ready succeed,
and 4 consecutive absences are fatal. -/
theorem notFoundPolicy :
    (∀ p t id e c tk items rest, e.tokenResult = .ok tk →
        e.listResult = .ok items → findCluster items id = none →
        stateDeleted ∈ t →
        runPoll p t id stateDeleted (e :: rest) c = .success stateDeleted)
      ∧ (∀ id exp e c tk items, exp ≠ stateDeleted →
          e.tokenResult = .ok tk → e.listResult = .ok items →
          findCluster items id = none →
          getTokenFuncStep id exp e c
            = if c.noEntryInListRetryCount + 1 > retryLimit then
                ⟨.fatal "failed to find cluster in list",
                  ⟨c.noEntryInListRetryCount + 1, 0⟩, some tk⟩
              else
                ⟨.state stateRetrying,
                  ⟨c.noEntryInListRetryCount + 1, 0⟩, some tk⟩)
      ∧ (∀ p t id exp envs1 e2 tk items cl,
          stateRetrying ∈ p → stateRetrying ∉ t → exp ≠ stateDeleted →
          (∀ e ∈ envs1, absentOk id e) → envs1.length = 3 →
          e2.tokenResult = .ok tk → e2.listResult = .ok items →
          findCluster items id = some cl → cl.state = stateReady →
          stateReady ∈ t →
          runPoll p t id exp (envs1 ++ [e2]) ⟨0, 0⟩ = .success stateReady)
      ∧ (∀ p t id exp e1 e2 e3 e4 rest,
          stateRetrying ∈ p → stateRetrying ∉ t → exp ≠ stateDeleted →
          absentOk id e1 → absentOk id e2 → absentOk id e3 → absentOk id e4 →
          runPoll p t id exp (e1 :: e2 :: e3 :: e4 :: rest) ⟨0, 0⟩
            = .fatal "failed to find cluster in list") := by
  refine ⟨?_, ?_, ?_, ?_⟩
  · intro p t id e c tk items rest htk hl hf hmem
    rw [runPoll_cons, step_absent_deleted id e c tk items htk hl hf]
    simp only [if_pos hmem]
  · intro id exp e c tk items hexp htk hl hf
    rw [step_absent_other id exp e c tk items hexp htk hl hf]
  · intro p t id exp envs1 e2 tk items cl hp hnt hexp hall hlen htk hl hf hcl
      hready
    rw [runPoll_absorb_absent p t id exp hp hnt hexp envs1 [e2] ⟨0, 0⟩ hall
      rfl (by simp [hlen, retryLimit])]
    rw [runPoll_cons, step_found id exp e2 _ tk items cl htk hl hf]
    rw [hcl]
    simp only [if_pos hready]
  · intro p t id exp e1 e2 e3 e4 rest hp hnt hexp h1 h2 h3 h4
    have habs := runPoll_absorb_absent p t id exp hp hnt hexp [e1, e2, e3]
      (e4 :: rest) ⟨0, 0⟩
      (by
        intro e he
        simp only [List.mem_cons, List.mem_singleton] at he
        rcases he with he | he | he | he
        · exact he ▸ h1
        · exact he ▸ h2
        · exact he ▸ h3
        · exact absurd he (by simp))
      rfl (by simp [retryLimit])
    rw [show (e1 :: e2 :: e3 :: e4 :: rest)
        = [e1, e2, e3] ++ (e4 :: rest) from rfl, habs]
    have hc : (⟨(⟨0, 0⟩ : Counters).noEntryInListRetryCount + [e1, e2, e3].length,
        0⟩ : Counters) = ⟨3, 0⟩ := by simp
    rw [hc]
    obtain ⟨⟨tk, htk⟩, items, hl, hf⟩ := h4
    rw [runPoll_cons, step_absent_other id exp e4 ⟨3, 0⟩ tk items hexp htk hl hf]
    have hgt : (3 : Nat) + 1 > retryLimit := by simp [retryLimit]
    rw [if_pos hgt]

/-- C2 witness: with target deleted an absent resource succeeds on the first
attempt; with target ready, 3 absences then a ready sighting succeed, and 4
consecutive absences are fatal; the 4th absence is the one that fails. -/
theorem notFoundPolicyWitness :
    runPoll deletePending [stateDeleted] "c-1" stateDeleted
        [⟨.ok "t1", .ok []⟩] ⟨0, 0⟩ = .success stateDeleted
      ∧ runPoll createInitialPending [stateReady] "c-1" stateReady
          ([⟨.ok "t1", .ok []⟩, ⟨.ok "t2", .ok []⟩, ⟨.ok "t3", .ok []⟩]
            ++ [⟨.ok "t4", .ok [⟨"c-1", "ready", [], []⟩]⟩]) ⟨0, 0⟩
        = .success stateReady
      ∧ runPoll createInitialPending [stateReady] "c-1" stateReady
          [⟨.ok "t1", .ok []⟩, ⟨.ok "t2", .ok []⟩, ⟨.ok "t3", .ok []⟩,
            ⟨.ok "t4", .ok []⟩] ⟨0, 0⟩
        = .fatal "failed to find cluster in list"
      ∧ getTokenFuncStep "c-1" stateReady ⟨.ok "t4", .ok []⟩ ⟨3, 0⟩
        = ⟨.fatal "failed to find cluster in list", ⟨4, 0⟩, some "t4"⟩ := by
  refine ⟨?_, ?_, ?_, ?_⟩
  · exact notFoundPolicy.1 deletePending [stateDeleted] "c-1" _ ⟨0, 0⟩ "t1" []
      [] rfl rfl rfl (by decide)
  · exact notFoundPolicy.2.2.1 createInitialPending [stateReady] "c-1"
      stateReady _ _ "t4" _ ⟨"c-1", "ready", [], []⟩
      (by decide) (by decide) (by decide)
      (by
        intro e he
        simp only [List.mem_cons, List.mem_singleton] at he
        rcases he with he | he | he | he
        · exact he ▸ ⟨⟨"t1", rfl⟩, [], rfl, rfl⟩
        · exact he ▸ ⟨⟨"t2", rfl⟩, [], rfl, rfl⟩
        · exact he ▸ ⟨⟨"t3", rfl⟩, [], rfl, rfl⟩
        · exact absurd he (by simp))
      rfl rfl rfl rfl rfl (by decide)
  · exact notFoundPolicy.2.2.2 createInitialPending [stateReady] "c-1"
      stateReady _ _ _ _ []
      (by decide) (by decide) (by decide)
      ⟨⟨"t1", rfl⟩, [], rfl, rfl⟩ ⟨⟨"t2", rfl⟩, [], rfl, rfl⟩
      ⟨⟨"t3", rfl⟩, [], rfl, rfl⟩ ⟨⟨"t4", rfl⟩, [], rfl, rfl⟩
  · have h := notFoundPolicy.2.1 "c-1" stateReady ⟨.ok "t4", .ok []⟩ ⟨3, 0⟩
      "t4" [] (by decide) rfl rfl rfl
    rwa [if_pos (by decide : (3 : Nat) + 1 > retryLimit)] at h

/-- C3: the two closure counters are independent: a failing list query never
lowers the error retry counter and leaves the no-visibility counter
untouched; a successful list query resets the error retry counter to zero
(found or not); finding the resource resets the no-visibility counter to
zero; an absence (when deletion is not expected) increments the
no-visibility counter; an absence when deletion is expected leaves it
unchanged; a token failure touches neither counter. -/
theorem counterResetInvariant :
    ∀ id exp e c,
      ((∃ tk items, e.tokenResult = .ok tk ∧ e.listResult = .ok items) →
        (getTokenFuncStep id exp e c).counters.errRetryCount = 0)
      ∧ ((∃ tk, e.tokenResult = .ok tk) →
          (∀ items, e.listResult ≠ .ok items) →
          c.errRetryCount
              ≤ (getTokenFuncStep id exp e c).counters.errRetryCount
            ∧ (getTokenFuncStep id exp e c).counters.noEntryInListRetryCount
              = c.noEntryInListRetryCount)
      ∧ ((∃ tk items cl, e.tokenResult = .ok tk ∧ e.listResult = .ok items
            ∧ findCluster items id = some cl) →
          (getTokenFuncStep id exp e c).counters.noEntryInListRetryCount = 0)
      ∧ ((∃ tk items, e.tokenResult = .ok tk ∧ e.listResult = .ok items
            ∧ findCluster items id = none) → exp ≠ stateDeleted →
          (getTokenFuncStep id exp e c).counters.noEntryInListRetryCount
            = c.noEntryInListRetryCount + 1)
      ∧ ((∃ tk items, e.tokenResult = .ok tk ∧ e.listResult = .ok items
            ∧ findCluster items id = none) → exp = stateDeleted →
          (getTokenFuncStep id exp e c).counters.noEntryInListRetryCount
            = c.noEntryInListRetryCount)
      ∧ ((∃ m, e.tokenResult = .error m) →
          (getTokenFuncStep id exp e c).counters = c) := by
  intro id exp e c
  refine ⟨?_, ?_, ?_, ?_, ?_, ?_⟩
  · rintro ⟨tk, items, htk, hl⟩
    rcases hf : findCluster items id with _ | cl
    · by_cases hexp : exp = stateDeleted
      · subst hexp
        rw [step_absent_deleted id e c tk items htk hl hf]
      · rw [step_absent_other id exp e c tk items hexp htk hl hf]
        split <;> rfl
    · rw [step_found id exp e c tk items cl htk hl hf]
  · rintro ⟨tk, htk⟩ hne
    rcases hl : e.listResult with items | ⟨s, m⟩ | ⟨tmo, m⟩
    · exact absurd hl (hne items)
    · simp only [getTokenFuncStep, htk, hl]
      split_ifs <;> refine ⟨?_, rfl⟩ <;> simp <;> omega
    · simp only [getTokenFuncStep, htk, hl]
      split_ifs <;> refine ⟨?_, rfl⟩ <;> simp
  · rintro ⟨tk, items, cl, htk, hl, hf⟩
    rw [step_found id exp e c tk items cl htk hl hf]
  · rintro ⟨tk, items, htk, hl, hf⟩ hexp
    rw [step_absent_other id exp e c tk items hexp htk hl hf]
    split <;> rfl
  · rintro ⟨tk, items, htk, hl, hf⟩ hexp
    subst hexp
    rw [step_absent_deleted id e c tk items htk hl hf]
  · rintro ⟨m, htk⟩
    rw [step_token_error id exp e c m htk]


/-- C3 witness: a failing 500 attempt increments the error counter and
leaves the no-visibility counter untouched; a successful query resets the
error counter; finding the resource resets the no-visibility counter; a
token failure touches neither. -/
theorem counterResetInvariantWitness :
    ((getTokenFuncStep "c-1" stateReady ⟨.ok "t1", .httpErr 500 "boom"⟩
        ⟨2, 1⟩).counters.noEntryInListRetryCount = 2
      ∧ 1 ≤ (getTokenFuncStep "c-1" stateReady ⟨.ok "t1", .httpErr 500 "boom"⟩
          ⟨2, 1⟩).counters.errRetryCount)
      ∧ (getTokenFuncStep "c-1" stateReady ⟨.ok "t2", .ok []⟩
          ⟨2, 1⟩).counters.errRetryCount = 0
      ∧ (getTokenFuncStep "c-1" stateReady
          ⟨.ok "t3", .ok [⟨"c-1", "creating", [], []⟩]⟩
          ⟨2, 1⟩).counters.noEntryInListRetryCount = 0
      ∧ (getTokenFuncStep "c-1" stateReady ⟨.error "denied", .ok []⟩
          ⟨2, 1⟩).counters = ⟨2, 1⟩ := by
  refine ⟨⟨?_, ?_⟩, ?_, ?_, ?_⟩
  · exact ((counterResetInvariant "c-1" stateReady
      ⟨.ok "t1", .httpErr 500 "boom"⟩ ⟨2, 1⟩).2.1 ⟨"t1", rfl⟩
      (by intro items h; cases h)).2
  · exact ((counterResetInvariant "c-1" stateReady
      ⟨.ok "t1", .httpErr 500 "boom"⟩ ⟨2, 1⟩).2.1 ⟨"t1", rfl⟩
      (by intro items h; cases h)).1
  · exact (counterResetInvariant "c-1" stateReady ⟨.ok "t2", .ok []⟩
      ⟨2, 1⟩).1 ⟨"t2", [], rfl, rfl⟩
  · exact (counterResetInvariant "c-1" stateReady _ ⟨2, 1⟩).2.2.1
      ⟨"t3", [⟨"c-1", "creating", [], []⟩], ⟨"c-1", "creating", [], []⟩,
        rfl, rfl, rfl⟩
  · exact (counterResetInvariant "c-1" stateReady ⟨.error "denied", .ok []⟩
      ⟨2, 1⟩).2.2.2.2.2 ⟨"denied", rfl⟩

/-- C8: every poll attempt invokes the token provider anew before querying
the list endpoint: a token-acquisition failure aborts the attempt with that
error before any query, each attempt passes its own freshly acquired token
to the list query, and the per-run token trace consists of exactly the
per-attempt fresh tokens of the executed prefix (a token is never reused by
a later attempt). -/
theorem freshTokenPerAttempt :
    (∀ id exp e c m, e.tokenResult = .error m →
        getTokenFuncStep id exp e c = ⟨.fatal m, c, none⟩)
      ∧ (∀ id exp e c, (getTokenFuncStep id exp e c).usedToken = tokenOf e)
      ∧ (∀ p t id exp envs c, ∃ k,
          runPollTokens p t id exp envs c = (envs.take k).map tokenOf) := by
  exact ⟨step_token_error, step_usedToken,
    fun p t id exp envs c => runPollTokens_trace p t id exp envs c⟩

/-- C8 witness: a token failure is fatal with that error, and a three-attempt
run uses the three per-attempt tokens in order. -/
theorem freshTokenPerAttemptWitness :
    getTokenFuncStep "c-1" stateReady ⟨.error "denied", .ok []⟩ ⟨0, 0⟩
        = ⟨.fatal "denied", ⟨0, 0⟩, none⟩
      ∧ (∃ k, runPollTokens createInitialPending [stateReady] "c-1" stateReady
          [⟨.ok "t1", .httpErr 500 "boom"⟩, ⟨.ok "t2", .ok []⟩,
            ⟨.ok "t3", .ok [⟨"c-1", "ready", [], []⟩]⟩] ⟨0, 0⟩
          = ([⟨.ok "t1", .httpErr 500 "boom"⟩, ⟨.ok "t2", .ok []⟩,
              ⟨.ok "t3", .ok [⟨"c-1", "ready", [], []⟩]⟩].take k).map tokenOf) := by
  constructor
  · exact freshTokenPerAttempt.1 "c-1" stateReady _ ⟨0, 0⟩ "denied" rfl
  · exact freshTokenPerAttempt.2.2 createInitialPending [stateReady] "c-1"
      stateReady _ ⟨0, 0⟩

/-! ## C5 helpers -/

lemma clusterCreateContext_id (d : ResourceData) (env : CreateEnv) :
    (clusterCreateContext d env).d.id = d.id
      ∨ ∃ cl s, env.postResult = .ok cl
          ∧ runPoll createInitialPending [stateReady] cl.id stateReady
              env.poll1 ⟨0, 0⟩ = .success s
          ∧ (clusterCreateContext d env).d.id = cl.id := by
  rcases hce : env.clientErr with _ | e
  · rcases hte : env.tokenResult with m | tk
    · left
      simp [clusterCreateContext, hce, hte]
    · rcases hpost : env.postResult with ce | cl
      · left
        rcases hst : ce.respStatus with _ | s <;>
          simp [clusterCreateContext, hce, hte, hpost, hst]
      · rcases hpoll : runPoll createInitialPending [stateReady] cl.id
            stateReady env.poll1 ⟨0, 0⟩ with s | m | _
        · right
          refine ⟨cl, s, rfl, hpoll, ?_⟩
          simp only [clusterCreateContext, hce, hte, hpost, hpoll]
          split
          · rcases GetDefaultWorkersName
                (cl.machineSetsDetail) with e | ns
            · rfl
            · rcases hput : env.putResult with ce2 | cl2
              · rcases hst2 : ce2.respStatus with _ | s2 <;>
                  simp [hput, hst2]
              · rcases hpoll2 : runPoll postUpdatePending [stateReady] cl2.id
                    stateReady env.poll2 ⟨0, 0⟩ with s2 | m2 | _ <;>
                  rcases hread : env.readResult with m3 | u <;>
                  simp [hput, hpoll2, hread, pollFailureOutcome]
          · rcases hread : env.readResult with m3 | u <;> simp [hread]
        · left
          simp [clusterCreateContext, hce, hte, hpost, hpoll,
            pollFailureOutcome]
        · left
          simp [clusterCreateContext, hce, hte, hpost, hpoll,
            pollFailureOutcome]
  · left
    simp [clusterCreateContext, hce]

/-- C5 counterexample: a Create over pre-operation identifier "" whose
follow-up update poll fails returns an error yet leaves the persisted
identifier set to the newly created cluster's identifier "c-1" — not "as it
was before the operation". -/
theorem persistedIdentifierFrameCounterexample :
    (clusterCreateContext ⟨"", [⟨"mB", 3⟩], none, [], []⟩
        ⟨none, .ok "tok",
          .ok ⟨"c-1", "ready", [⟨"mA", 1⟩, ⟨"mB", 2⟩],
            [⟨"mA", ["controlplane"]⟩, ⟨"mB", ["worker"]⟩]⟩,
          [⟨.ok "t1", .ok [⟨"c-1", "ready", [], []⟩]⟩],
          .ok ⟨"c-1", "updating", [], []⟩,
          [⟨.ok "t2", .httpErr 404 "nf"⟩],
          .ok ()⟩).outcome = .err "nf"
      ∧ (clusterCreateContext ⟨"", [⟨"mB", 3⟩], none, [], []⟩
          ⟨none, .ok "tok",
            .ok ⟨"c-1", "ready", [⟨"mA", 1⟩, ⟨"mB", 2⟩],
              [⟨"mA", ["controlplane"]⟩, ⟨"mB", ["worker"]⟩]⟩,
            [⟨.ok "t1", .ok [⟨"c-1", "ready", [], []⟩]⟩],
            .ok ⟨"c-1", "updating", [], []⟩,
            [⟨.ok "t2", .httpErr 404 "nf"⟩],
            .ok ()⟩).d.id = "c-1"
      ∧ ("c-1" : String) ≠ "" := by
  refine ⟨rfl, rfl, ?_⟩
  decide

/-- C5 (amended): Delete clears the persisted identifier exactly when the
delete pipeline succeeds with the poll confirming deleted, and leaves the
resource data untouched on every other outcome; Update never writes the
resource data at all; a failing Create leaves the identifier unchanged when
it fails before the initial poll has succeeded, and otherwise (failure
during the follow-up phase) leaves it set to the newly created cluster's
identifier — it is never reset. -/
theorem persistedIdentifierFrameAmended :
    (∀ d env, (clusterDeleteContext d env).2 = .ok →
        (clusterDeleteContext d env).1.id = ""
          ∧ runPoll deletePending [stateDeleted] d.id stateDeleted env.poll
              ⟨0, 0⟩ = .success stateDeleted)
      ∧ (∀ d env, (clusterDeleteContext d env).2 ≠ .ok →
          (clusterDeleteContext d env).1 = d)
      ∧ (∀ d env, (clusterUpdateContext d env).d = d)
      ∧ (∀ d env, (clusterCreateContext d env).outcome ≠ .ok →
          (clusterCreateContext d env).d.id = d.id
            ∨ ∃ cl s, env.postResult = .ok cl
                ∧ runPoll createInitialPending [stateReady] cl.id stateReady
                    env.poll1 ⟨0, 0⟩ = .success s
                ∧ (clusterCreateContext d env).d.id = cl.id) := by
  refine ⟨?_, ?_, ?_, ?_⟩
  · intro d env hok
    rcases hce : env.clientErr with _ | e
    · rcases hte : env.tokenResult with m | tk
      · simp [clusterDeleteContext, hce, hte] at hok
      · rcases hde : env.deleteResult with m | u
        · simp [clusterDeleteContext, hce, hte, hde] at hok
        · rcases hpoll : runPoll deletePending [stateDeleted] d.id
              stateDeleted env.poll ⟨0, 0⟩ with s | m | _
          · have hs := runPoll_success_mem_target deletePending [stateDeleted]
              d.id stateDeleted env.poll ⟨0, 0⟩ s hpoll
            simp only [List.mem_singleton] at hs
            subst hs
            exact ⟨by simp [clusterDeleteContext, hce, hte, hde, hpoll], rfl⟩
          · simp [clusterDeleteContext, hce, hte, hde, hpoll,
              pollFailureOutcome] at hok
          · simp [clusterDeleteContext, hce, hte, hde, hpoll,
              pollFailureOutcome] at hok
    · simp [clusterDeleteContext, hce] at hok
  · intro d env hne
    rcases hce : env.clientErr with _ | e
    · rcases hte : env.tokenResult with m | tk
      · simp [clusterDeleteContext, hce, hte]
      · rcases hde : env.deleteResult with m | u
        · simp [clusterDeleteContext, hce, hte, hde]
        · rcases hpoll : runPoll deletePending [stateDeleted] d.id
              stateDeleted env.poll ⟨0, 0⟩ with s | m | _
          · exact absurd (by simp [clusterDeleteContext, hce, hte, hde, hpoll])
              hne
          · simp [clusterDeleteContext, hce, hte, hde, hpoll,
              pollFailureOutcome]
          · simp [clusterDeleteContext, hce, hte, hde, hpoll,
              pollFailureOutcome]
    · simp [clusterDeleteContext, hce]
  · intro d env
    simp only [clusterUpdateContext]
    repeat' first
      | rfl
      | split
  · intro d env _
    exact clusterCreateContext_id d env

/-- C5 witness: a delete whose poll confirms deleted clears the identifier;
a delete whose poll times out leaves the resource data unchanged; an update
leaves the resource data unchanged; a create failing at the initial poll
keeps its pre-operation identifier. -/
theorem persistedIdentifierFrameAmendedWitness :
    (clusterDeleteContext ⟨"c-1", [], none, [], []⟩
        ⟨none, .ok "tok", .ok (), [⟨.ok "t1", .ok []⟩]⟩).1.id = ""
      ∧ (clusterDeleteContext ⟨"c-1", [], none, [], []⟩
          ⟨none, .ok "tok", .ok (), []⟩).1
        = ⟨"c-1", [], none, [], []⟩
      ∧ (clusterUpdateContext ⟨"c-1", [], none, [], []⟩
          ⟨none, .error "denied", false, .ok ⟨"c-1", "ready", [], []⟩, [],
            .ok ()⟩).d
        = ⟨"c-1", [], none, [], []⟩
      ∧ ((clusterCreateContext ⟨"", [], none, [], []⟩
          ⟨none, .ok "tok", .ok ⟨"c-9", "ready", [], []⟩, [], .ok ⟨"", "", [], []⟩,
            [], .ok ()⟩).d.id = ""
        ∨ ∃ cl s, (Except.ok ⟨"c-9", "ready", [], []⟩ : Except CallError Cluster)
              = .ok cl
            ∧ runPoll createInitialPending [stateReady] cl.id stateReady []
                ⟨0, 0⟩ = .success s
            ∧ (clusterCreateContext ⟨"", [], none, [], []⟩
                ⟨none, .ok "tok", .ok ⟨"c-9", "ready", [], []⟩, [],
                  .ok ⟨"", "", [], []⟩, [], .ok ()⟩).d.id = cl.id) := by
  refine ⟨?_, ?_, ?_, ?_⟩
  · exact (persistedIdentifierFrameAmended.1 ⟨"c-1", [], none, [], []⟩
      ⟨none, .ok "tok", .ok (), [⟨.ok "t1", .ok []⟩]⟩ rfl).1
  · exact persistedIdentifierFrameAmended.2.1 _ _ (by decide)
  · exact persistedIdentifierFrameAmended.2.2.1 _ _
  · exact persistedIdentifierFrameAmended.2.2.2 _ _ (by decide)

/-- C7 evaluated at the failing input: the schema declares the Kubernetes
version under "kubernetes_version" (the key the update path reads), but the
create path reads "kubernetesVersion", which is never declared; a Create
whose configuration declares only a Kubernetes-version change ("1.25.0",
no worker nodes) therefore completes without issuing the follow-up update
call, contradicting the claim; a Create with no worker nodes and no
Kubernetes-version override likewise issues no follow-up call. -/
theorem createFollowUpKubernetesVersionBug :
    getOkString (some "1.25.0") "kubernetes_version" = some "1.25.0"
      ∧ getOkString (some "1.25.0") "kubernetesVersion" = none
      ∧ (clusterCreateContext ⟨"", [], some "1.25.0", [], []⟩
          ⟨none, .ok "tok",
            .ok ⟨"c-1", "ready", [⟨"mA", 1⟩], [⟨"mA", ["worker"]⟩]⟩,
            [⟨.ok "t1", .ok [⟨"c-1", "ready", [], []⟩]⟩],
            .ok ⟨"c-1", "ready", [], []⟩, [], .ok ()⟩).followUpIssued
        = false
      ∧ (clusterCreateContext ⟨"", [], some "1.25.0", [], []⟩
          ⟨none, .ok "tok",
            .ok ⟨"c-1", "ready", [⟨"mA", 1⟩], [⟨"mA", ["worker"]⟩]⟩,
            [⟨.ok "t1", .ok [⟨"c-1", "ready", [], []⟩]⟩],
            .ok ⟨"c-1", "ready", [], []⟩, [], .ok ()⟩).outcome
        = .ok
      ∧ (clusterCreateContext ⟨"", [], none, [], []⟩
          ⟨none, .ok "tok",
            .ok ⟨"c-1", "ready", [⟨"mA", 1⟩], [⟨"mA", ["worker"]⟩]⟩,
            [⟨.ok "t1", .ok [⟨"c-1", "ready", [], []⟩]⟩],
            .ok ⟨"c-1", "ready", [], []⟩, [], .ok ()⟩).followUpIssued
        = false := by
  exact ⟨rfl, rfl, rfl, rfl, rfl⟩

/-- C10: the error branch of the cluster create/update mutating calls builds
its diagnostics from the HTTP response's status code without a nil check: it
produces the descriptive message when the response is present and
dereferences nil exactly when the error carries no HTTP response. -/
theorem mutatingCallErrorBranchSafety :
    (∀ d env ce, env.clientErr = none → (∃ tk, env.tokenResult = .ok tk) →
        env.postResult = .error ce →
        ((clusterCreateContext d env).outcome = .panicNilResponse
          ↔ ce.respStatus = none))
      ∧ (∀ d env ce s, env.clientErr = none →
          (∃ tk, env.tokenResult = .ok tk) →
          env.postResult = .error ce → ce.respStatus = some s →
          (clusterCreateContext d env).outcome
            = .err ("Error in ClustersPost: " ++ ce.msg ++ " - "
                ++ GetErrorMessage ce.msg s))
      ∧ (∀ d env ce, env.clientErr = none → (∃ tk, env.tokenResult = .ok tk) →
          (env.hasChangeWorkerNodes = true ∨
            (getOkString d.kubernetes_version "kubernetes_version").isSome
              = true) →
          (∃ ns, GetDefaultWorkersName d.default_machine_sets_detail
            = .ok ns) →
          env.putResult = .error ce →
          ((clusterUpdateContext d env).outcome = .panicNilResponse
            ↔ ce.respStatus = none)) := by
  refine ⟨?_, ?_, ?_⟩
  · rintro d env ce hce ⟨tk, htk⟩ hpost
    rcases hst : ce.respStatus with _ | s <;>
      simp [clusterCreateContext, hce, htk, hpost, hst]
  · rintro d env ce s hce ⟨tk, htk⟩ hpost hst
    simp [clusterCreateContext, hce, htk, hpost, hst]
  · rintro d env ce hce ⟨tk, htk⟩ hbranch ⟨ns, hns⟩ hput
    have hcond : (env.hasChangeWorkerNodes
        || (getOkString d.kubernetes_version "kubernetes_version").isSome)
        = true := by
      rcases hbranch with hb | hb <;> simp [hb]
    rcases hst : ce.respStatus with _ | s <;>
      simp [clusterUpdateContext, hce, htk, hcond, hns, hput, hst]

/-- C10 witness: a create whose post call errs with no HTTP response reaches
the nil dereference; with a 400 response it produces the descriptive
message; an update whose put call errs with no HTTP response reaches the nil
dereference. -/
theorem mutatingCallErrorBranchSafetyWitness :
    (clusterCreateContext ⟨"", [], none, [], []⟩
        ⟨none, .ok "tok", .error ⟨"conn reset", none⟩, [],
          .ok ⟨"", "", [], []⟩, [], .ok ()⟩).outcome = .panicNilResponse
      ∧ (clusterCreateContext ⟨"", [], none, [], []⟩
          ⟨none, .ok "tok", .error ⟨"bad request", some 400⟩, [],
            .ok ⟨"", "", [], []⟩, [], .ok ()⟩).outcome
        = .err ("Error in ClustersPost: " ++ "bad request" ++ " - "
            ++ GetErrorMessage "bad request" 400)
      ∧ (clusterUpdateContext ⟨"c-1", [], none, [], [⟨"mB", ["worker"]⟩]⟩
          ⟨none, .ok "tok", true, .error ⟨"conn reset", none⟩, [],
            .ok ()⟩).outcome = .panicNilResponse := by
  refine ⟨?_, ?_, ?_⟩
  · exact (mutatingCallErrorBranchSafety.1 ⟨"", [], none, [], []⟩
      ⟨none, .ok "tok", .error ⟨"conn reset", none⟩, [],
        .ok ⟨"", "", [], []⟩, [], .ok ()⟩ ⟨"conn reset", none⟩
      rfl ⟨"tok", rfl⟩ rfl).mpr rfl
  · exact mutatingCallErrorBranchSafety.2.1 ⟨"", [], none, [], []⟩
      ⟨none, .ok "tok", .error ⟨"bad request", some 400⟩, [],
        .ok ⟨"", "", [], []⟩, [], .ok ()⟩ ⟨"bad request", some 400⟩ 400
      rfl ⟨"tok", rfl⟩ rfl rfl
  · exact (mutatingCallErrorBranchSafety.2.2
      ⟨"c-1", [], none, [], [⟨"mB", ["worker"]⟩]⟩
      ⟨none, .ok "tok", true, .error ⟨"conn reset", none⟩, [], .ok ()⟩
      ⟨"conn reset", none⟩ rfl ⟨"tok", rfl⟩ (Or.inl rfl)
      ⟨["mB"], rfl⟩ rfl).mpr rfl
